import Mathlib

/-!
Verification of the MeTTa knowledge-graph integration layer.

The development shallowly embeds the Python sources:
- `src/backend/metta_server.py` (the local query engine / remote graph service),
- `src/backend/knowledge/metta_kg/integration.py` (`MeTTaKnowledgeGraph`, the gateway),
- `src/backend/routes/knowledge.py` (the HTTP-facing route code).

Machine-level details that the claims do not touch (timestamps, logging, HTTP
framing) are threaded through as explicit parameters or noted in comments.
Confidence/relevance scores are modelled as rationals; all scores in the source
are exact decimal literals.
-/

/-! ## Python string primitives used by the sources -/

/-- Python `needle in hay` on lists of characters: `needle.isPrefixOf` is tried at
every suffix of `hay`; the empty needle is contained in everything. -/
def charsContain (needle : List Char) : List Char → Bool
  | [] => needle.isEmpty
  | c :: t => needle.isPrefixOf (c :: t) || charsContain needle t

/-- Python `needle in hay` for strings (substring containment). -/
def pyIn (needle hay : String) : Bool := charsContain needle.data hay.data

/-- Python `str.lower()` (the sources only ever lower-case ASCII text). -/
def pyLower (s : String) : String := ⟨s.data.map Char.toLower⟩

/-- Accumulator pass of `pySplitWs`: splits at whitespace, dropping empty tokens,
exactly as Python `str.split()` with no argument. -/
def splitWsAux : List Char → List Char → List String
  | [], acc => if acc.isEmpty then [] else [⟨acc.reverse⟩]
  | c :: rest, acc =>
    if c.isWhitespace then
      if acc.isEmpty then splitWsAux rest [] else (⟨acc.reverse⟩ : String) :: splitWsAux rest []
    else splitWsAux rest (c :: acc)

/-- Python `str.split()` (split on whitespace runs, no empty tokens). -/
def pySplitWs (s : String) : List String := splitWsAux s.data []

/-! ## Data model

Python passes JSON-style dicts around; the concrete shapes used by the
knowledge-graph layer are embedded as structures.  Missing dict keys are
modelled with `Option`. -/

/-- A property value: the seed data and the claims only ever store strings,
numbers, booleans and lists of strings in the free-form `properties` maps. -/
inductive Value where
  | str (s : String)
  | num (q : ℚ)
  | boolV (b : Bool)
  | strList (l : List String)
deriving DecidableEq

/-- A free-form `properties` mapping (insertion-ordered, as a Python dict). -/
abbrev Props := List (String × Value)

/-- A concept record as stored in `knowledge_graph["concepts"]` in
`metta_server.py`.  Seeded records carry `name`, `description`, `domain` and
`properties`; records created by the `/concepts` route carry `name`,
`properties` and `created_at` only — absent keys are `none`. -/
structure ConceptRecord where
  name : String
  description : Option String
  domain : Option String
  properties : Props
  created_at : Option String
deriving DecidableEq

/-- A relationship record as stored in `knowledge_graph["relationships"]`
(JSON keys `from`, `to`, `type`, `properties`; `from`/`type` renamed because
they are reserved words here). -/
structure RelationshipRecord where
  fromName : String
  toName : String
  typeName : String
  properties : Props
deriving DecidableEq

/-- The in-memory store of `metta_server.py`: a dict of concepts keyed by name
(modelled as an insertion-ordered association list with unique keys) plus a
list of relationships. -/
structure ServerKG where
  concepts : List (String × ConceptRecord)
  relationships : List RelationshipRecord
deriving DecidableEq

/-- The initial `knowledge_graph = {"concepts": {}, "relationships": []}`. -/
def emptyKG : ServerKG := ⟨[], []⟩

/-- One entry of the `results` array produced by `query_knowledge_graph`
(`{"concept": ..., "data": ..., "relevance": ...}`). -/
structure ServerResult where
  concept : String
  data : ConceptRecord
  relevance : ℚ
deriving DecidableEq

/-- The `QueryResponse` pydantic model of `metta_server.py`. -/
structure QueryResponse where
  results : List ServerResult
  status : String
  message : String
  timestamp : String
deriving DecidableEq

/-- The response of the `/concepts` POST route (`QueryResponse` whose single
result entry is `{"concept": name, "status": "added"}`). -/
structure AddResponse where
  conceptName : String
  addStatus : String
  status : String
  message : String
  timestamp : String
deriving DecidableEq

namespace MettaServer

/-- Keyword set routing a query to the healthcare branch in
`query_knowledge_graph`. -/
def healthcareKeywords : List String :=
  ["health", "medical", "symptom", "disease", "treatment", "fever", "pain"]

/-- Keyword set routing a query to the logistics branch. -/
def logisticsKeywords : List String :=
  ["logistics", "supply", "chain", "delivery", "inventory", "route", "optimization"]

/-- Keyword set routing a query to the finance branch. -/
def financeKeywords : List String :=
  ["finance", "investment", "portfolio", "defi", "crypto", "yield", "farming"]

/-- `any(keyword in query_lower for keyword in kws)`. -/
def hasKeyword (kws : List String) (ql : String) : Bool := kws.any (fun k => pyIn k ql)

/-- `any(keyword in concept_name.lower() for keyword in query_lower.split())`:
some token of the (already lower-cased) query occurs in the concept name. -/
def name_matches (tokens : List String) (conceptName : String) : Bool :=
  tokens.any (fun t => pyIn t (pyLower conceptName))

/-- The loop body of a domain branch of `query_knowledge_graph`: every concept
whose top-level `domain` equals `dom` is returned, scored `0.9` on a name-token
match and `0.7` otherwise. -/
def domain_scan (kg : ServerKG) (dom : String) (tokens : List String) : List ServerResult :=
  (kg.concepts.filter (fun p => p.2.domain == some dom)).map
    (fun p => ⟨p.1, p.2, if name_matches tokens p.1 then 9/10 else 7/10⟩)

/-- The loop body of the general branch: every concept whose name contains a
query token, scored `0.8`. -/
def general_scan (kg : ServerKG) (tokens : List String) : List ServerResult :=
  (kg.concepts.filter (fun p => name_matches tokens p.1)).map
    (fun p => ⟨p.1, p.2, 8/10⟩)

/-- The domain classification implicit in the if/elif chain of
`query_knowledge_graph` (healthcare, then logistics, then finance, else none). -/
def classifyDomain (q : String) : Option String :=
  let ql := pyLower q
  if hasKeyword healthcareKeywords ql then some "healthcare"
  else if hasKeyword logisticsKeywords ql then some "logistics"
  else if hasKeyword financeKeywords ql then some "finance"
  else none

/-- `metta_server.py` `query_knowledge_graph` (the POST `/query` handler).  It
reads the store and never mutates it; the surrounding try/except cannot fire
because every operation in the body is total, so the `"error"` branch is dead
code here.  `now` stands for `datetime.utcnow().isoformat()`. -/
def query_knowledge_graph (kg : ServerKG) (q : String) (now : String) : QueryResponse :=
  let ql := pyLower q
  let tokens := pySplitWs ql
  if hasKeyword healthcareKeywords ql then
    ⟨(domain_scan kg "healthcare" tokens).take 5, "success",
      "Found relevant healthcare knowledge", now⟩
  else if hasKeyword logisticsKeywords ql then
    ⟨(domain_scan kg "logistics" tokens).take 5, "success",
      "Found relevant logistics knowledge", now⟩
  else if hasKeyword financeKeywords ql then
    ⟨(domain_scan kg "finance" tokens).take 5, "success",
      "Found relevant financial knowledge", now⟩
  else
    ⟨(general_scan kg tokens).take 3, "success", "Found general knowledge", now⟩

/-- Python dict assignment `d[k] = v` on an association list with unique keys:
replace the value in place if the key is present, otherwise append. -/
def dictInsert {α : Type} (k : String) (v : α) : List (String × α) → List (String × α)
  | [] => [(k, v)]
  | (k', v') :: rest => if k' == k then (k, v) :: rest else (k', v') :: dictInsert k v rest

/-- `metta_server.py` `add_concept` (the POST `/concepts` handler): stores
`{"name": name, "properties": properties, "created_at": now}` under the key
`name` — the caller's properties stay nested and no top-level `description` or
`domain` key is written. -/
def add_concept (kg : ServerKG) (name : String) (properties : Props) (now : String) :
    ServerKG × AddResponse :=
  ({ kg with concepts := dictInsert name ⟨name, none, none, properties, some now⟩ kg.concepts },
   ⟨name, "added", "success", "Concept '" ++ name ++ "' added successfully", now⟩)

/-- The route table of the FastAPI app in `metta_server.py`, read off the
`@app.get` / `@app.post` decorators. -/
def mettaRoutes : List (String × String) :=
  [("GET", "/"), ("GET", "/health"), ("POST", "/query"), ("POST", "/concepts"),
   ("GET", "/concepts"), ("GET", "/relationships")]

end MettaServer

/-! ## Gateway envelope types (`integration.py`) -/

/-- The `metadata` object of a mock result entry in `_query_mock_server`. -/
structure MockMeta where
  source : String
  last_updated : String
  reliability : String
deriving DecidableEq

/-- One entry of the `results` array of `_query_mock_server`
(`{"entity", "relation", "target", "confidence", "metadata"}`). -/
structure MockResult where
  entity : String
  relation : String
  target : String
  confidence : ℚ
  metadata : MockMeta
deriving DecidableEq

/-- One entry of the gateway envelope's `results` array: the entries relayed
from the remote MeTTa server and the mock entries have different dict shapes in
the source; the sum keeps them apart here. -/
inductive EnvItem where
  | fromServer (r : ServerResult)
  | fromMock (r : MockResult)
deriving DecidableEq

/-- The confidence-like score of an envelope entry: the server entries carry it
under the `relevance` key, the mock entries under `confidence`. -/
def EnvItem.confidence : EnvItem → ℚ
  | .fromServer r => r.relevance
  | .fromMock r => r.confidence

/-- The dict returned by `MeTTaKnowledgeGraph.query`: always `query`,
`results`, `status` and `message`; the `source` key is present only on the
remote-success path (`none` models an absent key). -/
structure QueryEnvelope where
  query : String
  results : List EnvItem
  status : String
  message : String
  source : Option String
deriving DecidableEq

/-- The parsed JSON body of a 200 response from the remote `/query` endpoint,
as consumed via `data.get(...)` with defaults: every field may be absent. -/
structure RemoteBody where
  results : Option (List ServerResult)
  status : Option String
  message : Option String
deriving DecidableEq

/-- Outcome of the HTTP POST that `MeTTaKnowledgeGraph.query` makes to the
remote `/query` endpoint.  `ok` is an HTTP 200 whose body parsed; `httpError`
is a non-200 status (the body is then never parsed); the remaining
constructors are the `requests` exceptions and a 200 whose body fails to
parse, all of which raise and are caught by the blanket `except`. -/
inductive RemoteOutcome where
  | ok (body : RemoteBody)
  | httpError (code : Nat)
  | connectionError
  | timeout
  | badJson
deriving DecidableEq

/-- The remote-dependency failure classes of claim C5: everything except a
parsed 200 response. -/
def isRemoteFailure : RemoteOutcome → Bool
  | .ok _ => false
  | _ => true

/-- Repackage a response actually produced by `metta_server.py` as the JSON
body the gateway would receive from it (the pydantic model serializes
`results`, `status`, `message` and `timestamp`; the gateway reads the first
three). -/
def serverBody (r : QueryResponse) : RemoteBody := ⟨some r.results, some r.status, some r.message⟩

namespace MeTTaKnowledgeGraph

/-- Healthcare keyword set of `_query_mock_server` (note: shorter than the
server's — no `fever`/`pain`). -/
def mockHealthcareKeywords : List String := ["health", "medical", "symptom", "disease", "treatment"]

/-- Logistics keyword set of `_query_mock_server`. -/
def mockLogisticsKeywords : List String := ["logistics", "supply", "chain", "delivery", "inventory"]

/-- Finance keyword set of `_query_mock_server`. -/
def mockFinanceKeywords : List String := ["finance", "investment", "portfolio", "defi", "crypto"]

/-- `integration.py` `_query_mock_server`: keyword-routed, hard-coded response
dicts `{query, results, status, message}` — no `source` key and no timestamp.
The try/except cannot fire (the body is total), so the `"error"` branch is
dead code here and the status is always `"success"`. -/
def query_mock_server (q : String) : QueryEnvelope :=
  let ql := pyLower q
  if MettaServer.hasKeyword mockHealthcareKeywords ql then
    ⟨q, [.fromMock ⟨"Medical Knowledge Base", "contains", "Healthcare Information", 95/100,
          ⟨"Medical Database", "2024-01-15", "High"⟩⟩,
        .fromMock ⟨"Symptom Analysis", "relates_to", "Diagnostic Process", 88/100,
          ⟨"Clinical Guidelines", "2024-01-10", "High"⟩⟩],
      "success", "Found relevant healthcare knowledge in the graph", none⟩
  else if MettaServer.hasKeyword mockLogisticsKeywords ql then
    ⟨q, [.fromMock ⟨"Supply Chain Optimization", "optimizes", "Delivery Efficiency", 92/100,
          ⟨"Logistics Database", "2024-01-12", "High"⟩⟩,
        .fromMock ⟨"Route Planning", "improves", "Cost Reduction", 89/100,
          ⟨"Transportation Analytics", "2024-01-08", "High"⟩⟩],
      "success", "Found relevant logistics knowledge in the graph", none⟩
  else if MettaServer.hasKeyword mockFinanceKeywords ql then
    ⟨q, [.fromMock ⟨"DeFi Protocols", "provides", "Yield Opportunities", 91/100,
          ⟨"DeFi Analytics", "2024-01-14", "High"⟩⟩,
        .fromMock ⟨"Portfolio Management", "optimizes", "Risk-Adjusted Returns", 87/100,
          ⟨"Financial Database", "2024-01-11", "High"⟩⟩],
      "success", "Found relevant financial knowledge in the graph", none⟩
  else
    ⟨q, [.fromMock ⟨"General Knowledge", "contains", "Information Database", 75/100,
          ⟨"Knowledge Base", "2024-01-15", "Medium"⟩⟩],
      "success", "Found general knowledge in the graph", none⟩

/-- `integration.py` `MeTTaKnowledgeGraph.query`.  The method reads only the
configured `endpoint` and the per-call HTTP outcome; the instance has no other
state, so successive calls are independent.  If the endpoint differs from
`"http://localhost:8080"` the mock is returned *without* any HTTP attempt;
otherwise the POST is made and a 200 response is wrapped with
`source = "MeTTa Server"`, while a non-200 status and every raised exception
fall back to the mock.  The second component records whether the HTTP POST to
the remote `/query` was performed. -/
def query (endpoint : String) (remote : RemoteOutcome) (q : String) : QueryEnvelope × Bool :=
  if endpoint ≠ "http://localhost:8080" then
    (query_mock_server q, false)
  else
    match remote with
    | .ok body =>
        (⟨q, (body.results.getD []).map EnvItem.fromServer, body.status.getD "success",
          body.message.getD "Query successful", some "MeTTa Server"⟩, true)
    | _ => (query_mock_server q, true)

/-- The rendering of one property value inside `_format_properties`: strings
are single-quoted, everything else is interpolated bare.  The exact text of
the non-string renderings is never relied upon by any theorem. -/
def value_text : Value → String
  | .str s => "'" ++ s ++ "'"
  | .num q => toString q
  | .boolV b => cond b "True" "False"
  | .strList l => toString l

/-- `integration.py` `_format_properties`. -/
def format_properties (ps : Props) : String :=
  String.intercalate ", " (ps.map (fun kv => kv.1 ++ ": " ++ value_text kv.2))

/-- `integration.py` `create_relationship`, with the local MeTTa server
handling the request in-process: the Cypher-style CREATE text is sent to the
server's POST `/query` route, i.e. to `query_knowledge_graph`, which computes
a response from the store and performs no mutation whatsoever (the server has
no POST `/relationships` route at all, see `MettaServer.mettaRoutes`).  The
handler returns normally for every input, so the response status is 200 and
`create_relationship` returns `response.status_code == 200`, i.e. `true`.
The returned store is the server's store after the call — unchanged. -/
def create_relationship (kg : ServerKG) (from_concept to_concept relationship_type : String)
    (properties : Props) (now : String) : ServerKG × Bool :=
  let props_str := if properties.isEmpty then "" else ", " ++ format_properties properties
  let cypher := "MATCH (a:Concept \x7bname: '" ++ from_concept ++ "'\x7d), (b:Concept \x7bname: '"
      ++ to_concept ++ "'\x7d) CREATE (a)-[r:" ++ relationship_type ++ props_str
      ++ "]->(b) RETURN r"
  let _response : QueryResponse := MettaServer.query_knowledge_graph kg cypher now
  (kg, true)

end MeTTaKnowledgeGraph

/-! ## The HTTP-facing route (`routes/knowledge.py`) -/

/-- The JSON body of a POST to the Flask `/query` route; `query` may be absent
(and, being read through Python truthiness, an empty string counts as
missing). -/
structure QueryRouteReq where
  query : Option String
  domain : Option String
deriving DecidableEq

/-- A row of the relational `KnowledgeGraph` table as serialized by the route
(external to this subsystem; passed through opaquely). -/
structure LocalKnowledgeRec where
  id : Nat
  concept : String
  definition : String
  confidence_score : ℚ
  source : String
deriving DecidableEq

/-- The 200 payload of the Flask `/query` route. -/
structure QueryRoutePayload where
  query : String
  domain : String
  kg_results : QueryEnvelope
  local_results : List LocalKnowledgeRec
deriving DecidableEq

/-- A Flask route result: a JSON payload or a JSON `{"error": ...}` object,
each with its HTTP status code. -/
inductive RouteResult where
  | okJson (payload : QueryRoutePayload) (code : Nat)
  | errJson (error : String) (code : Nat)
deriving DecidableEq

namespace KnowledgeRoutes

/-- `routes/knowledge.py` `query_knowledge`.  `data` is the parsed request
body (`none` when absent); `local_results` stands for the out-of-scope
relational-database lookup.  The guard `if not data or not data.get('query')`
rejects a missing body, a missing `query` key and the empty string alike with
`{"error": "Query is required"}` and HTTP 400, *before*
`knowledge_graph.query` is reached.  The second component records whether
`knowledge_graph.query` was invoked. -/
def query_knowledge (data : Option QueryRouteReq) (endpoint : String) (remote : RemoteOutcome)
    (local_results : List LocalKnowledgeRec) : RouteResult × Bool :=
  match data with
  | none => (.errJson "Query is required" 400, false)
  | some d =>
    match d.query with
    | none => (.errJson "Query is required" 400, false)
    | some qt =>
      if qt = "" then (.errJson "Query is required" 400, false)
      else
        let kg := MeTTaKnowledgeGraph.query endpoint remote qt
        (.okJson ⟨qt, d.domain.getD "general", kg.1, local_results⟩ 200, true)

end KnowledgeRoutes

/-! ## Concrete fixtures used by counterexamples and witnesses -/

/-- The properties of the round-trip test concept of §8 of the spec: the caller
supplies the domain tag inside `properties`. -/
def feverProps : Props := [("domain", Value.str "healthcare"),
  ("description", Value.str "Elevated body temperature indicating illness")]

/-- A store holding one concept with no top-level domain tag. -/
def widgetRec : ConceptRecord := ⟨"Widget", none, none, [], none⟩

/-- A one-concept store whose only concept matches general queries by name. -/
def kgWidget : ServerKG := ⟨[("Widget", widgetRec)], []⟩

/-- A seeded healthcare concept in the shape `initialize_knowledge_graph` uses
(top-level `domain` key present). -/
def feverSeedRec : ConceptRecord :=
  ⟨"Fever", some "Elevated body temperature indicating illness", some "healthcare", [], none⟩

/-- A store holding the seeded `Fever` concept. -/
def kgFever : ServerKG := ⟨[("Fever", feverSeedRec)], []⟩

/-- The result entry `query_knowledge_graph` produces for `kgFever` and the
query `"fever"`. -/
def rFever : ServerResult := ⟨"Fever", feverSeedRec, 9/10⟩

/-- An existing concept for the overwrite witness. -/
def recA : ConceptRecord := ⟨"A", none, none, [], none⟩

/-- A store with one concept, for the overwrite witness. -/
def kgA : ServerKG := ⟨[("A", recA)], []⟩

/-- First properties written to concept `X` in the overwrite witness. -/
def props1 : Props := [("risk", Value.str "low")]

/-- Second properties written to concept `X` in the overwrite witness. -/
def props2 : Props := [("risk", Value.str "high")]

/-- A well-formed 200 body from the remote service. -/
def okBody : RemoteBody := ⟨some [], some "success", some "Query successful"⟩

/-- The seeded `Fever → Antibiotic` relationship record. -/
def c8Rel : RelationshipRecord :=
  ⟨"Fever", "Antibiotic", "TREATED_BY", [("effectiveness", Value.str "conditional")]⟩

/-- A store whose relationship list holds exactly the seeded record. -/
def c8KG : ServerKG := ⟨[], [c8Rel]⟩

/-- First mock finance result entry. -/
def rDefiP : EnvItem := .fromMock ⟨"DeFi Protocols", "provides", "Yield Opportunities", 91/100,
  ⟨"DeFi Analytics", "2024-01-14", "High"⟩⟩

/-- Second mock finance result entry. -/
def rPortM : EnvItem := .fromMock ⟨"Portfolio Management", "optimizes", "Risk-Adjusted Returns",
  87/100, ⟨"Financial Database", "2024-01-11", "High"⟩⟩

/-! ## Helper lemmas -/

/-- No branch of the mock ever writes a `source` key. -/
lemma mock_source_none (q : String) : (MeTTaKnowledgeGraph.query_mock_server q).source = none := by
  unfold MeTTaKnowledgeGraph.query_mock_server
  dsimp only
  split_ifs <;> rfl

/-- Every branch of the mock echoes the query text. -/
lemma mock_query_eq (q : String) : (MeTTaKnowledgeGraph.query_mock_server q).query = q := by
  unfold MeTTaKnowledgeGraph.query_mock_server
  dsimp only
  split_ifs <;> rfl

/-- Every branch of the mock reports status `"success"`. -/
lemma mock_status_success (q : String) :
    (MeTTaKnowledgeGraph.query_mock_server q).status = "success" := by
  unfold MeTTaKnowledgeGraph.query_mock_server
  dsimp only
  split_ifs <;> rfl

/-- The hard-coded mock confidences all lie in `[0, 1]`. -/
lemma mock_confidence_bounds (q : String) (r : EnvItem)
    (hr : r ∈ (MeTTaKnowledgeGraph.query_mock_server q).results) :
    0 ≤ r.confidence ∧ r.confidence ≤ 1 := by
  revert hr
  unfold MeTTaKnowledgeGraph.query_mock_server
  dsimp only
  split_ifs <;> intro hr <;>
    simp only [List.mem_cons, List.not_mem_nil, or_false] at hr <;>
    rcases hr with rfl | rfl <;>
    norm_num [EnvItem.confidence]

/-- The results of `query_knowledge_graph` are the truncated scan of the
classified domain, or the truncated general scan. -/
lemma qkg_results_eq (kg : ServerKG) (q now : String) :
    (MettaServer.query_knowledge_graph kg q now).results =
      (match MettaServer.classifyDomain q with
       | some d => (MettaServer.domain_scan kg d (pySplitWs (pyLower q))).take 5
       | none => (MettaServer.general_scan kg (pySplitWs (pyLower q))).take 3) := by
  unfold MettaServer.query_knowledge_graph MettaServer.classifyDomain
  dsimp only
  by_cases c1 : MettaServer.hasKeyword MettaServer.healthcareKeywords (pyLower q) <;>
  by_cases c2 : MettaServer.hasKeyword MettaServer.logisticsKeywords (pyLower q) <;>
  by_cases c3 : MettaServer.hasKeyword MettaServer.financeKeywords (pyLower q) <;>
  simp [c1, c2, c3]

/-- A domain-scan entry is scored `0.9` on a name-token match, else `0.7`. -/
lemma domain_scan_relevance (kg : ServerKG) (d : String) (tokens : List String) (r : ServerResult)
    (hr : r ∈ MettaServer.domain_scan kg d tokens) :
    r.relevance = if MettaServer.name_matches tokens r.concept then 9/10 else 7/10 := by
  simp only [MettaServer.domain_scan, List.mem_map, List.mem_filter] at hr
  obtain ⟨p, hp, rfl⟩ := hr
  rfl

/-- A general-scan entry is scored `0.8`. -/
lemma general_scan_relevance (kg : ServerKG) (tokens : List String) (r : ServerResult)
    (hr : r ∈ MettaServer.general_scan kg tokens) : r.relevance = 8/10 := by
  simp only [MettaServer.general_scan, List.mem_map, List.mem_filter] at hr
  obtain ⟨p, hp, rfl⟩ := hr
  rfl

/-- Every relevance score the server produces is `0.9`, `0.7` or `0.8`. -/
lemma server_relevance_tiers (kg : ServerKG) (q now : String) (r : ServerResult)
    (hr : r ∈ (MettaServer.query_knowledge_graph kg q now).results) :
    r.relevance = 9/10 ∨ r.relevance = 7/10 ∨ r.relevance = 8/10 := by
  rw [qkg_results_eq] at hr
  rcases hd : MettaServer.classifyDomain q with _ | d <;> rw [hd] at hr
  · exact Or.inr (Or.inr (general_scan_relevance _ _ _ (List.take_subset _ _ hr)))
  · have := domain_scan_relevance _ _ _ _ (List.take_subset _ _ hr)
    rw [this]
    split_ifs <;> simp

/-- Keys reachable after a dict assignment: the inserted key or an old key. -/
lemma dictInsert_keys_sub {α : Type} (k : String) (v : α) (l : List (String × α)) :
    ∀ m ∈ (MettaServer.dictInsert k v l).map Prod.fst, m = k ∨ m ∈ l.map Prod.fst := by
  induction l with
  | nil => simp [MettaServer.dictInsert]
  | cons hd tl ih =>
    obtain ⟨k', v'⟩ := hd
    by_cases hk : k' == k
    · simp only [MettaServer.dictInsert, hk, if_pos]
      intro m hm
      rcases List.mem_cons.1 hm with rfl | hm
      · exact Or.inl rfl
      · exact Or.inr (List.mem_cons_of_mem _ hm)
    · simp only [MettaServer.dictInsert, hk, Bool.false_eq_true, if_neg, not_false_iff]
      intro m hm
      rcases List.mem_cons.1 hm with rfl | hm
      · exact Or.inr (List.mem_cons_self _ _)
      · rcases ih m hm with h | h
        · exact Or.inl h
        · exact Or.inr (List.mem_cons_of_mem _ h)

/-- Dict assignment preserves key uniqueness. -/
lemma dictInsert_nodup_keys {α : Type} (k : String) (v : α) (l : List (String × α))
    (h : (l.map Prod.fst).Nodup) : ((MettaServer.dictInsert k v l).map Prod.fst).Nodup := by
  induction l with
  | nil => simp [MettaServer.dictInsert]
  | cons hd tl ih =>
    obtain ⟨k', v'⟩ := hd
    simp only [List.map_cons, List.nodup_cons] at h
    by_cases hk : k' == k
    · have hk' : k' = k := by simpa using hk
      subst hk'
      simp only [MettaServer.dictInsert, hk, if_pos, List.map_cons, List.nodup_cons]
      exact h
    · simp only [MettaServer.dictInsert, hk, Bool.false_eq_true, if_neg, not_false_iff,
        List.map_cons, List.nodup_cons]
      refine ⟨fun hm => ?_, ih h.2⟩
      rcases dictInsert_keys_sub k v tl k' hm with rfl | hm'
      · simp at hk
      · exact h.1 hm'

/-- After a dict assignment on a unique-key store, exactly the inserted entry
carries the inserted key. -/
lemma dictInsert_filter {α : Type} (k : String) (v : α) (l : List (String × α))
    (h : (l.map Prod.fst).Nodup) :
    (MettaServer.dictInsert k v l).filter (fun p => p.1 == k) = [(k, v)] := by
  induction l with
  | nil => simp [MettaServer.dictInsert]
  | cons hd tl ih =>
    obtain ⟨k', v'⟩ := hd
    simp only [List.map_cons, List.nodup_cons] at h
    by_cases hk : k' == k
    · have hk' : k' = k := by simpa using hk
      subst hk'
      simp only [MettaServer.dictInsert, hk, if_pos]
      rw [List.filter_cons_of_pos (by simp)]
      have : tl.filter (fun p => p.1 == k') = [] := by
        rw [List.filter_eq_nil_iff]
        intro p hp hpk
        have hp1 : p.1 = k' := by simpa using hpk
        have hmem : k' ∈ tl.map Prod.fst := hp1 ▸ List.mem_map_of_mem Prod.fst hp
        exact h.1 hmem
      rw [this]
    · simp only [MettaServer.dictInsert, hk, Bool.false_eq_true, if_neg, not_false_iff]
      rw [List.filter_cons_of_neg (by simpa using hk)]
      exact ih h.2

/-- Gateway call with the default endpoint and a parsed 200 response. -/
lemma query_default_ok (b : RemoteBody) (q : String) :
    MeTTaKnowledgeGraph.query "http://localhost:8080" (.ok b) q =
      (⟨q, (b.results.getD []).map EnvItem.fromServer, b.status.getD "success",
        b.message.getD "Query successful", some "MeTTa Server"⟩, true) := rfl

/-- Gateway call with the default endpoint and any remote failure: the HTTP
POST was attempted, and the mock response is returned. -/
lemma query_default_fail (o : RemoteOutcome) (q : String) (h : isRemoteFailure o = true) :
    MeTTaKnowledgeGraph.query "http://localhost:8080" o q =
      (MeTTaKnowledgeGraph.query_mock_server q, true) := by
  cases o <;> first | rfl | simp [isRemoteFailure] at h

/-- Gateway call with a non-default endpoint: the mock response is returned
and the HTTP POST is never attempted, irrespective of the remote outcome. -/
lemma query_nondefault (e : String) (he : e ≠ "http://localhost:8080") (o : RemoteOutcome)
    (q : String) :
    MeTTaKnowledgeGraph.query e o q = (MeTTaKnowledgeGraph.query_mock_server q, false) := by
  simp [MeTTaKnowledgeGraph.query, he]

/-! ## Claim theorems -/

/-- Claim C1, counterexample: with the remote unreachable, the fallback
envelope carries no `source` key at all (so it is not tagged
`source = "fallback"`), and a successful remote call is tagged
`source = "MeTTa Server"`, not `source = "remote"`. -/
theorem fallback_envelope_lacks_fallback_source_tag :
    ¬ (MeTTaKnowledgeGraph.query "http://localhost:8080" RemoteOutcome.connectionError
        "defi").1.source = some "fallback" ∧
    ¬ (MeTTaKnowledgeGraph.query "http://localhost:8080" (RemoteOutcome.ok okBody)
        "defi").1.source = some "remote" :=
  ⟨by decide, by decide⟩

/-- Claim C1, amended: with the default endpoint, both paths return an
envelope with the common fields and the query text echoed; the remote-success
path tags `source = "MeTTa Server"`, while on every remote failure the
envelope has status `"success"` and no `source` key. -/
theorem gateway_envelope_source_tags (q : String) (o : RemoteOutcome) (b : RemoteBody) :
    (MeTTaKnowledgeGraph.query "http://localhost:8080" o q).1.query = q ∧
    (MeTTaKnowledgeGraph.query "http://localhost:8080" (.ok b) q).1.source = some "MeTTa Server" ∧
    (isRemoteFailure o = true →
      (MeTTaKnowledgeGraph.query "http://localhost:8080" o q).1.status = "success" ∧
      (MeTTaKnowledgeGraph.query "http://localhost:8080" o q).1.source = none) := by
  refine ⟨?_, by rw [query_default_ok], fun hf => ⟨?_, ?_⟩⟩
  · cases o <;> first
      | rfl
      | (rw [query_default_fail _ _ (by rfl)]; exact mock_query_eq q)
  · cases o <;> first
      | (rw [query_default_fail _ _ (by rfl)]; exact mock_status_success q)
      | (simp [isRemoteFailure] at hf)
  · cases o <;> first
      | (rw [query_default_fail _ _ (by rfl)]; exact mock_source_none q)
      | (simp [isRemoteFailure] at hf)

/-- Claim C1, witness: the amended theorem applied to a concrete unreachable
remote. -/
theorem gateway_envelope_source_tags_witness :
    isRemoteFailure RemoteOutcome.connectionError = true ∧
    ((MeTTaKnowledgeGraph.query "http://localhost:8080" RemoteOutcome.connectionError
        "route").1.status = "success" ∧
     (MeTTaKnowledgeGraph.query "http://localhost:8080" RemoteOutcome.connectionError
        "route").1.source = none) :=
  ⟨rfl, (gateway_envelope_source_tags "route" RemoteOutcome.connectionError
    ⟨none, none, none⟩).2.2 rfl⟩

/-- Claim C2, counterexample: with a non-default configured endpoint the
remote path is never attempted, even though the remote call would succeed —
the gateway returns the mock envelope (no `source` key) without any HTTP
POST. -/
theorem nondefault_endpoint_skips_remote_attempt :
    (MeTTaKnowledgeGraph.query "http://metta.example.com:8080" (RemoteOutcome.ok okBody)
      "defi").2 = false ∧
    (MeTTaKnowledgeGraph.query "http://metta.example.com:8080" (RemoteOutcome.ok okBody)
      "defi").1.source = none :=
  ⟨rfl, rfl⟩

/-- Claim C2, amended: the remote path is attempted exactly when the
configured endpoint is `http://localhost:8080`; and since `query` is a
function of the current call's endpoint and outcome alone (the instance holds
no other state), a remote that succeeds on any given call — regardless of
earlier failures — is served with the remote-tagged envelope on that call. -/
theorem remote_attempt_only_for_default_endpoint (e q : String) (o : RemoteOutcome)
    (b : RemoteBody) :
    (MeTTaKnowledgeGraph.query e o q).2 = (e == "http://localhost:8080") ∧
    (MeTTaKnowledgeGraph.query "http://localhost:8080" (.ok b) q).1.source
      = some "MeTTa Server" := by
  constructor
  · by_cases he : e = "http://localhost:8080"
    · subst he
      rw [show ("http://localhost:8080" == "http://localhost:8080") = true from by simp]
      cases o <;> rfl
    · rw [query_nondefault e he o q, show (e == "http://localhost:8080") = false from
        beq_eq_false_iff_ne.2 he]
  · rw [query_default_ok]

/-- Claim C3: evaluating the round-trip at a concrete store.  After
`add_concept("Fever", {domain: "healthcare", ...})` on the empty store, the
query `"fever"` classifies as healthcare but returns no results at all — the
added record keeps `domain` nested inside `properties`, so the handler's
top-level domain filter never sees it. -/
theorem added_concept_not_returned_by_domain_query :
    (MettaServer.query_knowledge_graph
      ((MettaServer.add_concept emptyKG "Fever" feverProps "t1").1) "fever" "t2").results
      = [] := by decide

/-- Claim C4, counterexample: on the generic/no-domain-match path the code
scores `0.8`, which is neither the claimed `0.5` nor one of the domain tiers. -/
theorem generic_path_relevance_is_not_half :
    (MettaServer.query_knowledge_graph kgWidget "widget" "t").results.map
      (fun r => r.relevance) = [8/10] ∧
    ¬ ((8 : ℚ)/10 = 5/10 ∨ (8 : ℚ)/10 = 9/10 ∨ (8 : ℚ)/10 = 7/10) :=
  ⟨rfl, by norm_num⟩

/-- Claim C4, amended: on the three domain paths every returned concept is
scored `0.9` when a query token occurs in its name and `0.7` otherwise; on
the generic path every returned concept is scored `0.8` (not `0.5`). -/
theorem local_engine_relevance_tiers (kg : ServerKG) (q now : String) (r : ServerResult)
    (hr : r ∈ (MettaServer.query_knowledge_graph kg q now).results) :
    (∀ d, MettaServer.classifyDomain q = some d →
      r.relevance = if MettaServer.name_matches (pySplitWs (pyLower q)) r.concept
        then 9/10 else 7/10) ∧
    (MettaServer.classifyDomain q = none → r.relevance = 8/10) := by
  rw [qkg_results_eq] at hr
  constructor
  · intro d hd
    rw [hd] at hr
    exact domain_scan_relevance _ _ _ _ (List.take_subset _ _ hr)
  · intro hd
    rw [hd] at hr
    exact general_scan_relevance _ _ _ (List.take_subset _ _ hr)

/-- Claim C4, witness: the seeded `Fever` concept is returned for the query
`"fever"` with the name-token-match score. -/
theorem local_engine_relevance_tiers_witness :
    rFever ∈ (MettaServer.query_knowledge_graph kgFever "fever" "t").results ∧
    MettaServer.classifyDomain "fever" = some "healthcare" ∧
    rFever.relevance = (if MettaServer.name_matches (pySplitWs (pyLower "fever")) rFever.concept
      then 9/10 else 7/10) := by
  have hmem : rFever ∈ (MettaServer.query_knowledge_graph kgFever "fever" "t").results := by
    rw [show (MettaServer.query_knowledge_graph kgFever "fever" "t").results = [rFever] from rfl]
    exact List.mem_cons_self _ _
  exact ⟨hmem, rfl, (local_engine_relevance_tiers kgFever "fever" "t" rFever hmem).1
    "healthcare" rfl⟩

/-- Claim C5: for every remote-dependency failure (non-200 status, connection
failure, timeout, malformed payload) and every endpoint, `query` returns the
defined mock envelope — a result object with status `"success"` — rather than
propagating the exception; and the HTTP-facing route only ever propagates the
`"Query is required"` validation error (HTTP 400) to its caller. -/
theorem gateway_absorbs_remote_failures (e q : String) (o : RemoteOutcome)
    (h : isRemoteFailure o = true) :
    (MeTTaKnowledgeGraph.query e o q).1 = MeTTaKnowledgeGraph.query_mock_server q ∧
    (MeTTaKnowledgeGraph.query e o q).1.status = "success" ∧
    (∀ (data : Option QueryRouteReq) (locals : List LocalKnowledgeRec) (msg : String) (c : Nat),
      (KnowledgeRoutes.query_knowledge data e o locals).1 = RouteResult.errJson msg c →
      msg = "Query is required" ∧ c = 400) := by
  have h1 : (MeTTaKnowledgeGraph.query e o q).1 = MeTTaKnowledgeGraph.query_mock_server q := by
    by_cases he : e = "http://localhost:8080"
    · subst he; rw [query_default_fail _ _ h]
    · rw [query_nondefault e he o q]
  refine ⟨h1, by rw [h1]; exact mock_status_success q, ?_⟩
  intro data locals msg c hmc
  cases data with
  | none =>
    simp only [KnowledgeRoutes.query_knowledge, RouteResult.errJson.injEq] at hmc
    exact ⟨hmc.1.symm, hmc.2.symm⟩
  | some d =>
    rcases hq : d.query with _ | qt
    · simp only [KnowledgeRoutes.query_knowledge, hq, RouteResult.errJson.injEq] at hmc
      exact ⟨hmc.1.symm, hmc.2.symm⟩
    · by_cases hz : qt = ""
      · subst hz
        simp [KnowledgeRoutes.query_knowledge, hq] at hmc
        exact ⟨hmc.1.symm, hmc.2.symm⟩
      · simp only [KnowledgeRoutes.query_knowledge, hq, if_neg hz] at hmc
        cases hmc

/-- Claim C5, witness: the theorem applied to a concrete timeout. -/
theorem gateway_absorbs_remote_failures_witness :
    isRemoteFailure RemoteOutcome.timeout = true ∧
    (MeTTaKnowledgeGraph.query "http://localhost:8080" RemoteOutcome.timeout "route").1 =
      MeTTaKnowledgeGraph.query_mock_server "route" :=
  ⟨rfl, (gateway_absorbs_remote_failures "http://localhost:8080" "route"
    RemoteOutcome.timeout rfl).1⟩

/-- Claim C6: a request whose query text is empty is answered immediately
with the `"Query is required"` validation error (HTTP 400); the result is the
same for every remote outcome and the gateway — hence neither the remote path
nor the fallback path — is never invoked (the second component is `false`). -/
theorem empty_query_returns_validation_error (dom : Option String) (e : String)
    (o : RemoteOutcome) (locals : List LocalKnowledgeRec) :
    KnowledgeRoutes.query_knowledge (some ⟨some "", dom⟩) e o locals =
      (RouteResult.errJson "Query is required" 400, false) := rfl

/-- Claim C7: on any store with unique concept names, adding `n` with `p1`
and then again with `p2` leaves exactly one concept entry keyed `n`, and that
record holds properties `p2` (dict-assignment overwrite semantics). -/
theorem add_concept_overwrites_previous_record (kg : ServerKG) (n : String) (p1 p2 : Props)
    (t1 t2 : String) (h : (kg.concepts.map Prod.fst).Nodup) :
    (((MettaServer.add_concept ((MettaServer.add_concept kg n p1 t1).1) n p2 t2).1).concepts.filter
      (fun p => p.1 == n)) = [(n, ⟨n, none, none, p2, some t2⟩)] := by
  have h1 := dictInsert_nodup_keys n (⟨n, none, none, p1, some t1⟩ : ConceptRecord) kg.concepts h
  exact dictInsert_filter n _ _ h1

/-- Claim C7, witness: the overwrite theorem applied to a concrete store. -/
theorem add_concept_overwrites_previous_record_witness :
    ((kgA.concepts.map Prod.fst).Nodup) ∧
    (((MettaServer.add_concept ((MettaServer.add_concept kgA "X" props1 "t1").1) "X" props2
      "t2").1).concepts.filter (fun p => p.1 == "X")) =
      [("X", ⟨"X", none, none, props2, some "t2"⟩)] :=
  ⟨by decide, add_concept_overwrites_previous_record kgA "X" props1 props2 "t1" "t2" (by decide)⟩

/-- Claim C8: evaluating the create pipeline at a concrete input.  A
"successful" `create_relationship("Fever", "Antibiotic", "TREATED_BY", {})`
leaves the relationship store exactly as it was (no record appended, no
duplicate accumulated) while reporting success, and the MeTTa server exposes
no POST `/relationships` route at all. -/
theorem create_relationship_never_appends :
    ((MeTTaKnowledgeGraph.create_relationship c8KG "Fever" "Antibiotic" "TREATED_BY" []
      "t").1.relationships = [c8Rel]) ∧
    ((MeTTaKnowledgeGraph.create_relationship c8KG "Fever" "Antibiotic" "TREATED_BY" []
      "t").2 = true) ∧
    ("POST", "/relationships") ∉ MettaServer.mettaRoutes :=
  ⟨rfl, rfl, by decide⟩

/-- Claim C9: whether the gateway serves a query from the remote path (with
the remote being this repository's MeTTa server) or from the fallback path,
every returned result's confidence score lies in `[0, 1]`. -/
theorem returned_confidences_lie_in_unit_interval (e q qs now : String) (kg : ServerKG)
    (o : RemoteOutcome)
    (h : o = .ok (serverBody (MettaServer.query_knowledge_graph kg qs now)) ∨
      isRemoteFailure o = true)
    (r : EnvItem) (hr : r ∈ (MeTTaKnowledgeGraph.query e o q).1.results) :
    0 ≤ r.confidence ∧ r.confidence ≤ 1 := by
  by_cases he : e = "http://localhost:8080"
  · subst he
    rcases h with rfl | hfail
    · rw [query_default_ok] at hr
      simp only [serverBody, Option.getD_some] at hr
      obtain ⟨s, hs, rfl⟩ := List.mem_map.1 hr
      show 0 ≤ s.relevance ∧ s.relevance ≤ 1
      rcases server_relevance_tiers kg qs now s hs with h | h | h <;> rw [h] <;> norm_num
    · rw [query_default_fail _ _ hfail] at hr
      exact mock_confidence_bounds q r hr
  · rw [query_nondefault e he o q] at hr
    exact mock_confidence_bounds q r hr

/-- Claim C9, witness: the bound at a concrete fallback result. -/
theorem returned_confidences_lie_in_unit_interval_witness :
    isRemoteFailure RemoteOutcome.connectionError = true ∧
    rDefiP ∈ (MeTTaKnowledgeGraph.query "http://localhost:8080" RemoteOutcome.connectionError
      "defi").1.results ∧
    (0 ≤ rDefiP.confidence ∧ rDefiP.confidence ≤ 1) := by
  have hmem : rDefiP ∈ (MeTTaKnowledgeGraph.query "http://localhost:8080"
      RemoteOutcome.connectionError "defi").1.results := by
    rw [show (MeTTaKnowledgeGraph.query "http://localhost:8080" RemoteOutcome.connectionError
      "defi").1.results = [rDefiP, rPortM] from rfl]
    exact List.mem_cons_self _ _
  exact ⟨rfl, hmem, returned_confidences_lie_in_unit_interval "http://localhost:8080" "defi"
    "x" "t" emptyKG RemoteOutcome.connectionError (Or.inr rfl) rDefiP hmem⟩

/-- Claim C10: the `/query` handler truncates its results to the first 5 on
the three domain paths and to the first 3 on the general path, silently
discarding further matching concepts (the returned list is a `take` of the
full scan). -/
theorem query_results_truncated_to_five_or_three (kg : ServerKG) (q now : String) :
    ((MettaServer.query_knowledge_graph kg q now).results.length ≤
      if (MettaServer.classifyDomain q).isSome then 5 else 3) ∧
    (∀ d, MettaServer.classifyDomain q = some d →
      (MettaServer.query_knowledge_graph kg q now).results =
        (MettaServer.domain_scan kg d (pySplitWs (pyLower q))).take 5) ∧
    (MettaServer.classifyDomain q = none →
      (MettaServer.query_knowledge_graph kg q now).results =
        (MettaServer.general_scan kg (pySplitWs (pyLower q))).take 3) := by
  refine ⟨?_, fun d hd => by rw [qkg_results_eq, hd], fun hd => by rw [qkg_results_eq, hd]⟩
  rw [qkg_results_eq]
  rcases hd : MettaServer.classifyDomain q with _ | d <;> simp [hd]

/-- Claim C10, witness: the truncation equation at a concrete general-path
query. -/
theorem query_results_truncated_to_five_or_three_witness :
    MettaServer.classifyDomain "widget" = none ∧
    (MettaServer.query_knowledge_graph kgWidget "widget" "t").results =
      (MettaServer.general_scan kgWidget (pySplitWs (pyLower "widget"))).take 3 :=
  ⟨rfl, (query_results_truncated_to_five_or_three kgWidget "widget" "t").2.2 rfl⟩
